import Mathlib

/-!
Verification of the Satlyt OBC/SBC gateway and resource manager.

This file gives a shallow embedding, in Lean 4, of the pure computational
content of the two Python modules `gateway.py` and `resource_manager.py`:

* Python strings are modelled as `List Char`.  The Python string methods
  used by the source (`strip`, `upper`, `lower`, `split`, `replace`,
  substring test) are embedded as executable Lean functions.  Python's
  Unicode-aware case mapping and whitespace classes are modelled over the
  ASCII range, which is the only range the programs' fixed command
  vocabulary and manifest text use.
* External effects (subprocess invocations of docker tooling and of the
  resource-manager script, HTTP calls, the wall clock) are modelled by
  passing each tool invocation's outcome (`returncode`, `stdout`,
  `stderr`) in as data; file I/O on the manifest is modelled by threading
  the manifest text through the functions and recording which steps ran.
  File-system exceptions (unreadable/unwritable manifest) and Python
  `float` parsing errors are outside the model: in the embedding the
  manifest read/write steps always succeed, which matches the claims'
  "assuming the file writes succeed" reading.
* The one regular expression of the source,
  `\n\s*deploy:.*?(?=\n\s*[a-zA-Z]|\n\s*$|\Z)` applied with `re.DOTALL`,
  is embedded operationally: a match starts at a newline, `\s*` then
  greedily consumes whitespace which must be followed by the literal
  `deploy:`, and the lazy `.*?` stops at the first position where the
  lookahead holds.  Because the body of an inserted deploy section starts
  with `\n      resources:` (a newline, spaces, then a letter), the
  lookahead holds immediately after `deploy:`.
* The float arithmetic of `get_current_limits` (`quota / period`, byte
  counts divided by `1024**3` / `1024**2`, formatted with `:.1f` / `:.0f`)
  is modelled with exact rational arithmetic and round-half-to-even
  fixed-point rendering; this agrees with IEEE double formatting except on
  ties introduced by double rounding, which no claim depends on.  The
  rendering of `float(cpu_limit or 1.0) * 0.5` inside the manifest patch is
  passed in as an explicit argument (`cpuRes`) for the same reason.
-/

/-! ## Python string primitives -/

/-- Python's whitespace class for `str.strip` and `\s` (ASCII range). -/
def isPySpace (c : Char) : Bool :=
  c = ' ' || c = '\t' || c = '\n' || c = '\r' || c = '\x0b' || c = '\x0c'

/-- Python `str.lstrip()` (ASCII whitespace). -/
def pyLstrip (s : List Char) : List Char := s.dropWhile isPySpace

/-- Python `str.rstrip()` (ASCII whitespace). -/
def pyRstrip (s : List Char) : List Char :=
  (s.reverse.dropWhile isPySpace).reverse

/-- Python `str.strip()` (ASCII whitespace). -/
def pyStrip (s : List Char) : List Char := pyRstrip (pyLstrip s)

/-- Python `str.upper()` (ASCII range). -/
def pyUpper (s : List Char) : List Char := s.map Char.toUpper

/-- Python `str.lower()` (ASCII range). -/
def pyLower (s : List Char) : List Char := s.map Char.toLower

/-- Python `s.split(sep, 1)` for a one-character separator, yielding the parts
before and after the first occurrence; `none` when the separator is absent
(in which case indexing `[1]` in the source would raise `IndexError`). -/
def pySplitOnce (sep : Char) : List Char → Option (List Char × List Char)
  | [] => none
  | c :: t =>
    if c = sep then some ([], t)
    else
      match pySplitOnce sep t with
      | some (a, b) => some (c :: a, b)
      | none => none

/-- Python `s.split(sep)` for a one-character separator: every (possibly
empty) segment, `[""]` on the empty string. -/
def pySplitAll (sep : Char) : List Char → List (List Char)
  | [] => [[]]
  | c :: t =>
    if c = sep then [] :: pySplitAll sep t
    else
      match pySplitAll sep t with
      | [] => [[c]]
      | a :: r => (c :: a) :: r

/-- Truthiness of an optional Python string: `None` and `""` are falsy. -/
def pyTruthy : Option (List Char) → Bool
  | none => false
  | some s => !s.isEmpty

/-- Rendering of an optional Python string inside an f-string: `None` prints
as the four letters `None`, a string prints as itself. -/
def pyShowOpt : Option (List Char) → List Char
  | none => "None".toList
  | some s => s

/-- Python `a or b` for an optional string `a` and default `b`: the default is
taken when `a` is `None` or empty. -/
def pyOrDefault (v : Option (List Char)) (d : List Char) : List Char :=
  match v with
  | none => d
  | some s => if s.isEmpty then d else s

/-- Python's substring test `sub in s`. -/
def pyContains (sub : List Char) : List Char → Bool
  | [] => sub.isEmpty
  | c :: t => sub.isPrefixOf (c :: t) || pyContains sub t

/-- Python `s.replace(old, new)` (all occurrences, left to right, scanning
resumes after each replacement).  The fuel argument of the auxiliary
function starts at the length of the string, which suffices because every
step either consumes one character or a nonempty occurrence of `old`.
The source only calls this with a fixed nonempty `old`; the `old ≠ []`
guard keeps the embedding total. -/
def pyReplaceAux (old new : List Char) : Nat → List Char → List Char
  | _, [] => []
  | 0, s => s
  | fuel + 1, c :: t =>
    if old ≠ [] ∧ old.isPrefixOf (c :: t) then
      new ++ pyReplaceAux old new fuel (List.drop old.length (c :: t))
    else
      c :: pyReplaceAux old new fuel t

/-- Python `s.replace(old, new)` for nonempty `old`. -/
def pyReplace (old new s : List Char) : List Char :=
  pyReplaceAux old new s.length s

/-- Decimal rendering of a natural number, as Python renders an `int`. -/
def natStr (n : Nat) : List Char := (Nat.repr n).toList

/-- Decimal rendering of an integer, as Python renders an `int`. -/
def intStr (n : Int) : List Char := (Int.repr n).toList

/-! ## The deploy-section regular expression

The pattern is `\n\s*deploy:.*?(?=\n\s*[a-zA-Z]|\n\s*$|\Z)` with `re.DOTALL`,
substituted by the empty string. -/

/-- An ASCII letter, the class `[a-zA-Z]` of the lookahead. -/
def isAsciiLetter (c : Char) : Bool := c.isUpper || c.isLower

/-- Whether the lookahead `(?=\n\s*[a-zA-Z]|\n\s*$|\Z)` holds at the start of
`t`.  `\Z` is the end of the text; the other alternatives need a newline,
after which (per backtracking through `\s*`) either the first
non-whitespace character is a letter, or everything remaining is
whitespace (which is exactly when `\n\s*$` can succeed without
`re.MULTILINE`). -/
def lookaheadOk : List Char → Bool
  | [] => true
  | c :: u =>
    c = '\n' &&
      (match u.dropWhile isPySpace with
       | [] => true
       | d :: _ => isAsciiLetter d)

/-- The lazy `.*?` before the lookahead: drop characters until the first
position where the lookahead holds, and return the remaining text (the
position where the match ends).  Total, because the lookahead holds at the
end of the text (`\Z`). -/
def consumeLazy : List Char → List Char
  | [] => []
  | c :: t => if lookaheadOk (c :: t) then c :: t else consumeLazy t

/-- Attempt to match `\n\s*deploy:.*?(?=...)` at the start of `s`; on success
return the text after the match (the part that survives the empty
substitution).  `\s*` is greedy, but since `deploy:` starts with a
non-whitespace character the only viable extent of `\s*` is the maximal
whitespace run. -/
def tryMatchDeploy : List Char → Option (List Char)
  | [] => none
  | c :: r =>
    if c = '\n' then
      if "deploy:".toList.isPrefixOf (r.dropWhile isPySpace) then
        some (consumeLazy (List.drop 7 (r.dropWhile isPySpace)))
      else none
    else none

/-- Length bound used for the fuel of the substitution scan. -/
theorem consumeLazy_length (t : List Char) : (consumeLazy t).length ≤ t.length := by
  induction t with
  | nil => simp [consumeLazy]
  | cons c t ih =>
    simp only [consumeLazy]
    split
    · exact Nat.le_refl _
    · exact Nat.le_trans ih (Nat.le_succ _)

/-- The remainder returned by a successful match is a strict tail portion. -/
theorem tryMatchDeploy_length {c : Char} {t rest : List Char}
    (h : tryMatchDeploy (c :: t) = some rest) : rest.length ≤ t.length := by
  simp only [tryMatchDeploy] at h
  split at h
  · split at h
    · have hr := Option.some.inj h
      subst hr
      have h1 := consumeLazy_length (List.drop 7 (t.dropWhile isPySpace))
      have h2 : (List.drop 7 (t.dropWhile isPySpace)).length ≤ (t.dropWhile isPySpace).length :=
        (List.drop_suffix _ _).length_le
      have h3 : (t.dropWhile isPySpace).length ≤ t.length :=
        (List.dropWhile_suffix _).length_le
      omega
    · exact absurd h (by simp)
  · exact absurd h (by simp)

/-- Python `re.sub(pattern, '', s, flags=re.DOTALL)` for the deploy-section
pattern: scan left to right, delete each match, resume after it.  Fuel
starts at the length of the string; each step consumes at least one
character. -/
def reSubDeployAux : Nat → List Char → List Char
  | _, [] => []
  | 0, s => s
  | fuel + 1, c :: t =>
    match tryMatchDeploy (c :: t) with
    | some rest => reSubDeployAux fuel rest
    | none => c :: reSubDeployAux fuel t

/-- Deletion of every match of the deploy-section pattern. -/
def reSubDeploy (s : List Char) : List Char := reSubDeployAux s.length s

/-! ## The manifest store (`resource_manager.py`) -/

/-- The container identity marker the patch splices after
(`container_name: satlyt-container`). -/
def composeMarker : List Char := "container_name: satlyt-container".toList

/-- The fixed baseline manifest document that `reset_resource_limits` writes
(the `original_content` literal of the source). -/
def original_content : List Char :=
  ("services:\n  satlyt-server:\n    build: ./satlyt_clean\n    ports:\n      - \"3000:3000\"\n    volumes:\n      - ./satlyt_clean/results:/app/results\n      - ./satlyt_clean/errors:/app/errors\n    container_name: satlyt-container").toList

/-- The `deploy:` resource-limits section inserted by `update_compose_file`.
`cpuRes` stands for Python's rendering of `float(cpu_limit or 1.0) * 0.5`
(IEEE float formatting is outside the model and the text does not affect
any claim). -/
def limits_section (cpu mem : Option (List Char)) (cpuRes : List Char) : List Char :=
  "    deploy:\n      resources:\n        limits:\n          cpus: '".toList
    ++ pyOrDefault cpu "1.0".toList
    ++ "'\n          memory: ".toList
    ++ pyOrDefault mem "1G".toList
    ++ "\n        reservations:\n          cpus: '".toList
    ++ cpuRes
    ++ "'\n          memory: ".toList
    ++ pyOrDefault mem "512M".toList

/-- Result of `update_compose_file`: the success flag of the returned dict and
the manifest text written back.  The only failure paths of the source are
file-system and `float`-parsing exceptions, which are outside the model, so
`success` is always true here. -/
structure UpdateResult where
  success : Bool
  content : List Char
  deriving DecidableEq

/-- Embedding of `ResourceManager.update_compose_file`: read the manifest, if
it mentions `deploy:` delete every match of the removal pattern, then
replace every occurrence of the identity marker by the marker followed by
the new limits section, and write the result back. -/
def update_compose_file (cpu mem : Option (List Char)) (cpuRes : List Char)
    (content : List Char) : UpdateResult :=
  let sec := limits_section cpu mem cpuRes
  let c1 := if pyContains "deploy:".toList content then reSubDeploy content else content
  let c2 := pyReplace composeMarker (composeMarker ++ '\n' :: sec) c1
  { success := true, content := c2 }

/-! ## Tool invocations and the limits readback -/

/-- Outcome of one `subprocess.run` invocation, as the source observes it. -/
structure ProcResult where
  returncode : Int
  stdout : List Char
  stderr : List Char
  deriving DecidableEq

/-- Round a rational to the nearest integer, ties to even (the rounding of
Python's fixed-point float formatting). -/
def roundHalfEven (x : ℚ) : Int :=
  let f := ⌊x⌋
  let r := x - (f : ℚ)
  if r < 1/2 then f
  else if r > 1/2 then f + 1
  else if f % 2 = 0 then f else f + 1

/-- Left-pad a digit string with zeros to the given width. -/
def padZeros (width : Nat) (s : List Char) : List Char :=
  List.replicate (width - s.length) '0' ++ s

/-- Python's `f"{x:.prec f}"` fixed-point rendering, on exact rationals. -/
def fmtFixed (prec : Nat) (x : ℚ) : List Char :=
  let n := roundHalfEven (x * ((10 : ℚ) ^ prec))
  if prec = 0 then intStr n
  else
    let a := n.natAbs
    let ip := a / 10 ^ prec
    let fp := a % 10 ^ prec
    (if n < 0 then ['-'] else []) ++ natStr ip ++ '.' :: padZeros prec (natStr fp)

/-- The `HostConfig` object of `docker inspect` as read by
`get_current_limits`; absent JSON keys are `none`. -/
structure HostConfig where
  cpuQuota : Option Int
  cpuPeriod : Option Int
  cpuCount : Option Int
  memory : Option Int
  deriving DecidableEq

/-- Outcome of the `docker inspect` query: a nonzero exit, or a parsed
document whose `HostConfig` key may be absent. -/
inductive InspectResult where
  | failed
  | ok (hc : Option HostConfig)
  deriving DecidableEq

/-- Embedding of `ResourceManager.get_current_limits`, returning the
`(cpu, memory)` string pair of the dict it builds.  A nonzero inspect exit
yields `("unknown", "unknown")`; reading `CpuQuota > 0` together with a
present `CpuPeriod` equal to zero raises `ZeroDivisionError` in the
source, caught by the outer handler, which also yields
`("unknown", "unknown")`.  A key that is absent and a key whose value is
not positive take the same branch, so both are modelled by `getD 0`. -/
def get_current_limits (i : InspectResult) : List Char × List Char :=
  match i with
  | .failed => ("unknown".toList, "unknown".toList)
  | .ok none => ("unlimited".toList, "unlimited".toList)
  | .ok (some hc) =>
    let q := hc.cpuQuota.getD 0
    let p := hc.cpuPeriod.getD 100000
    if q > 0 ∧ p = 0 then ("unknown".toList, "unknown".toList)
    else
      let cpu :=
        if q > 0 then fmtFixed 1 ((q : ℚ) / (p : ℚ))
        else if hc.cpuCount.getD 0 > 0 then intStr (hc.cpuCount.getD 0)
        else "unlimited".toList
      let b := hc.memory.getD 0
      let mem :=
        if b > 0 then
          if b ≥ 1024 ^ 3 then fmtFixed 1 ((b : ℚ) / ((1024 : ℚ) ^ 3)) ++ ['G']
          else if b ≥ 1024 ^ 2 then fmtFixed 0 ((b : ℚ) / ((1024 : ℚ) ^ 2)) ++ ['M']
          else intStr b ++ ['B']
        else "unlimited".toList
      (cpu, mem)

/-- Result of `verify_container_status`. -/
structure VerifyOutcome where
  success : Bool
  message : List Char
  errorTag : Option (List Char)
  status : Option (List Char)
  deriving DecidableEq

/-- Embedding of `ResourceManager.verify_container_status` over the outcome of
the `docker ps --filter ... --format .Status` query. -/
def verify_container_status (r : ProcResult) : VerifyOutcome :=
  if r.returncode ≠ 0 ∨ pyStrip r.stdout = [] then
    { success := false, message := "Container is not running".toList,
      errorTag := some "CONTAINER_NOT_RUNNING".toList, status := none }
  else
    let status := pyStrip r.stdout
    if pyContains "Up".toList status then
      { success := true, message := "Container is running and healthy".toList,
        errorTag := none, status := some status }
    else
      { success := false, message := "Container status: ".toList ++ status,
        errorTag := some "CONTAINER_NOT_HEALTHY".toList, status := none }

/-! ## The resource-limit orchestrator -/

/-- The externally visible steps of one orchestration run, in source order:
the `docker-compose down`, the manifest write, the best-effort `docker rm`,
the `docker-compose up`, the `docker ps` verification and the
`docker inspect` readback. -/
inductive MgrStep where
  | stop
  | writeManifest
  | removeOld
  | start
  | verify
  | inspect
  deriving DecidableEq

/-- Tool outcomes an orchestration run can observe, fixed up front: the model
of the environment one `set_resource_limits` / `reset_resource_limits`
invocation runs against. -/
structure ManagerEnv where
  stopRes : ProcResult
  removeRes : ProcResult
  startRes : ProcResult
  psRes : ProcResult
  inspectRes : InspectResult
  deriving DecidableEq

/-- The dict returned by `set_resource_limits` / `reset_resource_limits`,
together with the manifest text on disk after the call and the trace of
steps that actually ran. -/
structure MgrOutcome where
  success : Bool
  message : List Char
  errorTag : Option (List Char)
  limits : Option (Option (List Char) × Option (List Char))
  current_limits : Option (List Char × List Char)
  container_status : Option (List Char)
  manifest : List Char
  trace : List MgrStep
  deriving DecidableEq

/-- Embedding of `ResourceManager.set_resource_limits`: stop the instance
(aborting with `STOP_CONTAINER_FAILED` on a nonzero exit), patch the
manifest, remove the stale container (result ignored), start with
force-recreate (aborting with `START_CONTAINER_FAILED` on a nonzero exit),
verify the container is up, then read back the applied limits.  The
two-second settle delay has no observable effect in the model. -/
def set_resource_limits_mgr (env : ManagerEnv) (cpu mem : Option (List Char))
    (cpuRes : List Char) (m0 : List Char) : MgrOutcome :=
  if env.stopRes.returncode ≠ 0 then
    { success := false,
      message := "Failed to stop container: ".toList ++ env.stopRes.stderr,
      errorTag := some "STOP_CONTAINER_FAILED".toList,
      limits := none, current_limits := none, container_status := none,
      manifest := m0, trace := [.stop] }
  else
    let m1 := (update_compose_file cpu mem cpuRes m0).content
    if env.startRes.returncode ≠ 0 then
      { success := false,
        message := "Failed to start container: ".toList ++ env.startRes.stderr,
        errorTag := some "START_CONTAINER_FAILED".toList,
        limits := none, current_limits := none, container_status := none,
        manifest := m1, trace := [.stop, .writeManifest, .removeOld, .start] }
    else
      let v := verify_container_status env.psRes
      if v.success = false then
        { success := false, message := v.message, errorTag := v.errorTag,
          limits := none, current_limits := none, container_status := none,
          manifest := m1, trace := [.stop, .writeManifest, .removeOld, .start, .verify] }
      else
        { success := true,
          message := "Resource limits applied successfully".toList,
          errorTag := none,
          limits := some (cpu, mem),
          current_limits := some (get_current_limits env.inspectRes),
          container_status := v.status,
          manifest := m1,
          trace := [.stop, .writeManifest, .removeOld, .start, .verify, .inspect] }

/-- Embedding of `ResourceManager.reset_resource_limits`: run the stop command
but ignore its outcome entirely (the source never inspects
`stop_result`), overwrite the manifest with the fixed baseline document,
then start without force-recreate, failing only on a nonzero start exit. -/
def reset_resource_limits_mgr (env : ManagerEnv) (m0 : List Char) : MgrOutcome :=
  if env.startRes.returncode ≠ 0 then
    { success := false,
      message := "Failed to start container: ".toList ++ env.startRes.stderr,
      errorTag := some "START_CONTAINER_FAILED".toList,
      limits := none, current_limits := none, container_status := none,
      manifest := original_content, trace := [.stop, .writeManifest, .start] }
  else
    { success := true,
      message := "Resource limits reset to default (unlimited)".toList,
      errorTag := none,
      limits := some (some "unlimited".toList, some "unlimited".toList),
      current_limits := none, container_status := none,
      manifest := original_content, trace := [.stop, .writeManifest, .start] }

/-! ## The command dispatcher (`gateway.py`) -/

/-- Hex digit rendering used by JSON control-character escapes. -/
def hexDigit (n : Nat) : Char :=
  if n < 10 then Char.ofNat (48 + n) else Char.ofNat (87 + n)

/-- Escaping of one character as Python's `json.dumps` renders it inside a
string (ASCII range; non-ASCII input does not occur in the modelled data). -/
def jsonEscapeChar (c : Char) : List Char :=
  if c = '"' then ['\\', '"']
  else if c = '\\' then ['\\', '\\']
  else if c = '\n' then ['\\', 'n']
  else if c = '\r' then ['\\', 'r']
  else if c = '\t' then ['\\', 't']
  else if c = '\x08' then ['\\', 'b']
  else if c = '\x0c' then ['\\', 'f']
  else if c.toNat < 32 then
    '\\' :: 'u' :: '0' :: '0' :: hexDigit (c.toNat / 16) :: [hexDigit (c.toNat % 16)]
  else [c]

/-- JSON string literal rendering. -/
def jsonString (s : List Char) : List Char :=
  '"' :: (s.foldr (fun c acc => jsonEscapeChar c ++ acc) []) ++ ['"']

/-- Comma-space joining, as `json.dumps` separates object items. -/
def joinCommaSpace : List (List Char) → List Char
  | [] => []
  | [x] => x
  | x :: y :: r => x ++ ',' :: ' ' :: joinCommaSpace (y :: r)

/-- One JSON object with string values, rendered exactly as Python's
`json.dumps` renders a dict of strings (insertion order, `", "` between
items, `": "` between key and value). -/
def jsonObj (fields : List (List Char × List Char)) : List Char :=
  '{' :: joinCommaSpace (fields.map fun kv => jsonString kv.1 ++ ':' :: ' ' :: jsonString kv.2) ++ ['}']

/-- The outcomes of the five `docker stats` metric queries and the one
`docker inspect` identity query issued by `get_container_status`. -/
structure ContainerStatsEnv where
  cpuQ : ProcResult
  memQ : ProcResult
  memPercentQ : ProcResult
  netQ : ProcResult
  blockQ : ProcResult
  infoQ : ProcResult
  deriving DecidableEq

/-- One metric field: the stripped stdout when the query exited zero,
otherwise the literal `N/A`. -/
def statField (r : ProcResult) : List Char :=
  if r.returncode = 0 then pyStrip r.stdout else "N/A".toList

/-- Embedding of `SatelliteGateway.get_container_status`: five independent
metric queries each degrade to `N/A` on a nonzero exit; the identity query's
stdout is stripped and split on tabs without consulting its exit code, and
the whole result is wrapped as `CONTAINER_STATUS:<json>`.  `ts` stands for
`datetime.now().isoformat()`. -/
def get_container_status (e : ContainerStatsEnv) (ts : List Char) : List Char :=
  let cpu_percent := statField e.cpuQ
  let mem_usage := statField e.memQ
  let mem_percent := statField e.memPercentQ
  let net_io := statField e.netQ
  let block_io := statField e.blockQ
  let info_parts := pySplitAll '\t' (pyStrip e.infoQ.stdout)
  let status := match info_parts with | [] => "unknown".toList | s :: _ => s
  let started_at := info_parts.getD 1 "N/A".toList
  let image := info_parts.getD 2 "N/A".toList
  "CONTAINER_STATUS:".toList ++ jsonObj
    [("container_name".toList, "satlyt-container".toList),
     ("status".toList, status),
     ("cpu_percent".toList, cpu_percent),
     ("memory_usage".toList, mem_usage),
     ("memory_percent".toList, mem_percent),
     ("network_io".toList, net_io),
     ("block_io".toList, block_io),
     ("started_at".toList, started_at),
     ("image".toList, image),
     ("timestamp".toList, ts)]

/-- Embedding of `SatelliteGateway.start_container`. -/
def start_container (r : ProcResult) : List Char :=
  if r.returncode = 0 then "CONTAINER_STARTED".toList else "CONTAINER_ERROR".toList

/-- Embedding of `SatelliteGateway.stop_container`. -/
def stop_container (r : ProcResult) : List Char :=
  if r.returncode = 0 then "CONTAINER_STOPPED".toList else "CONTAINER_ERROR".toList

/-- Embedding of `SatelliteGateway.call_run_model`: `call_api` catches its own
faults and returns `None`, so only the truthiness of its result matters. -/
def call_run_model (apiTruthy : Bool) : List Char :=
  if apiTruthy then "MODEL_STARTED".toList else "API_ERROR".toList

/-- Embedding of `SatelliteGateway.call_execution_status`: `none` models a
falsy `call_api` result (`API_ERROR`), `some none` a truthy dict without a
`status` key (the `KeyError` lands in the handler's own `except`, printing
`CONNECTION_ERROR`), `some (some s)` a dict carrying `status = s`. -/
def call_execution_status (d : Option (Option (List Char))) : List Char :=
  match d with
  | none => "API_ERROR".toList
  | some none => "CONNECTION_ERROR".toList
  | some (some s) => "STATUS:".toList ++ s

/-- Embedding of `SatelliteGateway.call_get_file_number`, shaped like
`call_execution_status` with the `latest_result_file` key. -/
def call_get_file_number (d : Option (Option (List Char))) : List Char :=
  match d with
  | none => "API_ERROR".toList
  | some none => "CONNECTION_ERROR".toList
  | some (some s) => "FILES:".toList ++ s

/-- Embedding of `SatelliteGateway.call_shutdown`. -/
def call_shutdown (apiTruthy : Bool) : List Char :=
  if apiTruthy then "SHUTDOWN_ACK".toList else "SHUTDOWN_ERROR".toList

/-- Embedding of `SatelliteGateway.handle_text_prompt`: everything after the
first colon, echoed with ` OK` appended; without a colon the `[1]` index
raises and the handler answers with its error tag. -/
def handle_text_prompt (c : List Char) : List Char :=
  match pySplitOnce ':' c with
  | some (_, text) => text ++ " OK".toList
  | none => "TEXT_PROMPT_ERROR:list index out of range".toList

/-- The `for pair in limits_pairs` loop of `set_resource_limits`: keys are
stripped and lowercased, values stripped; later pairs overwrite earlier
ones; pairs without `=` are skipped. -/
def parse_limits (pairs : List (List Char)) :
    Option (List Char) × Option (List Char) :=
  pairs.foldl
    (fun acc pair =>
      match pySplitOnce '=' pair with
      | none => acc
      | some (k, v) =>
        let key := pyLower (pyStrip k)
        let val := pyStrip v
        if key = "cpu".toList then (some val, acc.2)
        else if key = "memory".toList then (acc.1, some val)
        else acc)
    (none, none)

/-- Embedding of `SatelliteGateway.set_resource_limits`: parse the payload
after the first colon into cpu/memory values, reject a payload carrying
neither (Python falsiness: a missing or empty value counts as absent),
then spawn `python3 resource_manager.py set <cpu> <memory>` with `1.0` /
`1G` substituted for an absent value.  The first component is the argument
vector of that spawn (`none` when no spawn happens), the second the
response line; on a nonzero exit of the spawned manager the response
carries the manager process's stderr. -/
def set_resource_limits_gw (command : List Char) (mgr : ProcResult) :
    Option (List (List Char)) × List Char :=
  match pySplitOnce ':' command with
  | none => (none, "RESOURCE_LIMITS_ERROR:list index out of range".toList)
  | some (_, limits_data) =>
    let parsed := parse_limits (pySplitAll ',' limits_data)
    let cpu := parsed.1
    let mem := parsed.2
    if !pyTruthy cpu && !pyTruthy mem then
      (none, "RESOURCE_LIMITS_ERROR:No limits specified".toList)
    else
      let args := ["python3".toList, "resource_manager.py".toList, "set".toList,
                   (if pyTruthy cpu then cpu.getD [] else "1.0".toList),
                   (if pyTruthy mem then mem.getD [] else "1G".toList)]
      if mgr.returncode = 0 then
        (some args,
         "RESOURCE_LIMITS_SET:CPU=".toList ++ pyShowOpt cpu
           ++ ",Memory=".toList ++ pyShowOpt mem)
      else
        (some args, "RESOURCE_LIMITS_ERROR:".toList ++ mgr.stderr)

/-- Embedding of `SatelliteGateway.reset_resource_limits` (the gateway-side
wrapper spawning `python3 resource_manager.py reset`). -/
def reset_resource_limits_gw (mgr : ProcResult) : List Char :=
  if mgr.returncode = 0 then "RESOURCE_LIMITS_RESET".toList
  else "RESOURCE_LIMITS_ERROR:".toList ++ mgr.stderr

/-- Everything the dispatcher's handlers can observe from the outside world
during one command. -/
structure GatewayEnv where
  startCtr : ProcResult
  stopCtr : ProcResult
  stats : ContainerStatsEnv
  nowIso : List Char
  runApiTruthy : Bool
  statusApi : Option (Option (List Char))
  filesApi : Option (Option (List Char))
  shutdownApiTruthy : Bool
  mgrSet : ProcResult
  mgrReset : ProcResult
  deriving DecidableEq

/-- The normalization `command.strip().upper()` applied before dispatch. -/
def pyNormalize (s : List Char) : List Char := pyUpper (pyStrip s)

/-- The dispatch table of `process_obc_command`, applied to the already
normalized command `c`; `none` models Python `None` (no response). -/
def dispatchCommand (env : GatewayEnv) (c : List Char) : Option (List Char) :=
  if "[LOG]".toList.isPrefixOf c then none
  else if c = "START_CONTAINER".toList then some (start_container env.startCtr)
  else if c = "STOP_CONTAINER".toList then some (stop_container env.stopCtr)
  else if c = "GET_CONTAINER_STATUS".toList then some (get_container_status env.stats env.nowIso)
  else if c = "RUN_PAYLOAD".toList then some (call_run_model env.runApiTruthy)
  else if c = "GET_STATUS".toList then some (call_execution_status env.statusApi)
  else if c = "GET_FILES".toList then some (call_get_file_number env.filesApi)
  else if c = "SHUTDOWN".toList then some (call_shutdown env.shutdownApiTruthy)
  else if c = "PING".toList then some "PONG".toList
  else if "SET_RESOURCE_LIMITS:".toList.isPrefixOf c then
    some (set_resource_limits_gw c env.mgrSet).2
  else if c = "RESET_RESOURCE_LIMITS".toList then some (reset_resource_limits_gw env.mgrReset)
  else if "TEXT_PROMPT:".toList.isPrefixOf c then some (handle_text_prompt c)
  else some ("UNKNOWN_CMD:".toList ++ c)

/-- Embedding of `SatelliteGateway.process_obc_command`: normalize, then
dispatch. -/
def process_obc_command (env : GatewayEnv) (command : List Char) : Option (List Char) :=
  dispatchCommand env (pyNormalize command)

/-- A fixed benign environment for concrete dispatcher evaluations. -/
def envDefault : GatewayEnv :=
  let ok : ProcResult := { returncode := 0, stdout := [], stderr := [] }
  { startCtr := ok, stopCtr := ok,
    stats := { cpuQ := ok, memQ := ok, memPercentQ := ok, netQ := ok, blockQ := ok, infoQ := ok },
    nowIso := [], runApiTruthy := false, statusApi := none, filesApi := none,
    shutdownApiTruthy := false, mgrSet := ok, mgrReset := ok }

/-! ## Helper lemmas about the string primitives -/

/-- Stripping on the right distributes over an append whose left part carries
no trailing whitespace. -/
theorem pyRstrip_append (A t : List Char)
    (hA : A.reverse.dropWhile isPySpace = A.reverse) :
    pyRstrip (A ++ t) = A ++ pyRstrip t := by
  unfold pyRstrip
  rw [List.reverse_append, List.dropWhile_append]
  by_cases h : (t.reverse.dropWhile isPySpace).isEmpty
  · rw [if_pos h, hA, List.reverse_reverse]
    rw [List.isEmpty_iff] at h
    rw [h]
    simp
  · rw [if_neg h, List.reverse_append, List.reverse_reverse]

/-- A replacement whose needle does not occur leaves the string unchanged
(auxiliary, by fuel). -/
theorem pyReplaceAux_noop (old new : List Char) :
    ∀ (s : List Char) (fuel : Nat), ¬ old <:+: s →
      pyReplaceAux old new fuel s = s := by
  intro s
  induction s with
  | nil => intro fuel _; cases fuel <;> rfl
  | cons c t ih =>
    intro fuel h
    cases fuel with
    | zero => rfl
    | succ f =>
      have hpre : ¬ (old ≠ [] ∧ old.isPrefixOf (c :: t)) := by
        rintro ⟨-, hp⟩
        rw [List.isPrefixOf_iff_prefix] at hp
        exact h hp.isInfix
      rw [pyReplaceAux, if_neg hpre]
      have ht : ¬ old <:+: t := fun hin => h (List.infix_cons hin)
      rw [ih f ht]

/-- Python `replace` is the identity when the needle is absent. -/
theorem pyReplace_noop (old new s : List Char) (h : ¬ old <:+: s) :
    pyReplace old new s = s :=
  pyReplaceAux_noop old new s s.length h

/-! ## Helper lemmas about the deploy-pattern scan -/

/-- The lazy consumption stops at a position where the lookahead holds. -/
theorem consumeLazy_lookahead (t : List Char) : lookaheadOk (consumeLazy t) = true := by
  induction t with
  | nil => rfl
  | cons c t ih =>
    rw [consumeLazy]
    split
    · assumption
    · exact ih

/-- A position satisfying the lookahead is the end of the text or a newline. -/
theorem lookaheadOk_shape {v : List Char} (h : lookaheadOk v = true) :
    v = [] ∨ ∃ u, v = '\n' :: u := by
  cases v with
  | nil => exact Or.inl rfl
  | cons c u =>
    rw [lookaheadOk, Bool.and_eq_true] at h
    have hc : c = '\n' := by
      have := h.1
      simpa using this
    exact Or.inr ⟨u, by rw [hc]⟩

/-- The lazy consumption yields a suffix of its input. -/
theorem consumeLazy_suffix (t : List Char) : consumeLazy t <:+ t := by
  induction t with
  | nil => exact List.suffix_rfl
  | cons c t ih =>
    rw [consumeLazy]
    split
    · exact List.suffix_rfl
    · exact ih.trans (List.suffix_cons c t)

/-- A successful match leaves a suffix of the input that is empty or starts
with a newline. -/
theorem tryMatchDeploy_shape {s rest : List Char}
    (h : tryMatchDeploy s = some rest) :
    (rest = [] ∨ ∃ u, rest = '\n' :: u) ∧ rest <:+ s := by
  cases s with
  | nil => exact absurd h (by simp [tryMatchDeploy])
  | cons c r =>
    rw [tryMatchDeploy] at h
    split at h
    · split at h
      · have hr := Option.some.inj h
        subst hr
        refine ⟨lookaheadOk_shape (consumeLazy_lookahead _), ?_⟩
        have h1 := consumeLazy_suffix (List.drop 7 (r.dropWhile isPySpace))
        have h2 := List.drop_suffix 7 (r.dropWhile isPySpace)
        have h3 := List.dropWhile_suffix (l := r) isPySpace
        exact ((h1.trans h2).trans h3).trans (List.suffix_cons c r)
      · exact absurd h (by simp)
    · exact absurd h (by simp)

/-- The scan maps text that is empty or newline-headed to text that is empty
or newline-headed. -/
theorem reSubDeployAux_shape :
    ∀ (fuel : Nat) (s : List Char), (s = [] ∨ ∃ u, s = '\n' :: u) →
      (reSubDeployAux fuel s = [] ∨ ∃ u, reSubDeployAux fuel s = '\n' :: u) := by
  intro fuel
  induction fuel with
  | zero =>
    intro s hs
    cases s with
    | nil => exact Or.inl rfl
    | cons c t => exact hs
  | succ f ih =>
    intro s hs
    cases s with
    | nil => exact Or.inl rfl
    | cons c t =>
      have hc : c = '\n' := by
        rcases hs with h | ⟨u, hu⟩
        · exact absurd h (by simp)
        · exact (List.cons.inj hu).1
      rw [reSubDeployAux]
      cases htm : tryMatchDeploy (c :: t) with
      | some rest => exact ih rest (tryMatchDeploy_shape htm).1
      | none => exact Or.inr ⟨reSubDeployAux f t, by rw [hc]⟩

/-- A newline-free prefix of the scan's output is a prefix of its input. -/
theorem reSubDeployAux_prefix_nl :
    ∀ (fuel : Nat) (s t : List Char), '\n' ∉ t →
      t <+: reSubDeployAux fuel s → t <+: s := by
  intro fuel
  induction fuel with
  | zero =>
    intro s t _ h
    cases s with
    | nil => exact h
    | cons c u => exact h
  | succ f ih =>
    intro s t hnl h
    cases s with
    | nil =>
      have : t = [] := List.prefix_nil.mp h
      subst this
      exact List.nil_prefix
    | cons c s' =>
      cases htm : tryMatchDeploy (c :: s') with
      | some rest =>
        simp only [reSubDeployAux, htm] at h
        have hshape := reSubDeployAux_shape f rest (tryMatchDeploy_shape htm).1
        have ht : t = [] := by
          rcases hshape with he | ⟨u, hu⟩
          · rw [he] at h; exact List.prefix_nil.mp h
          · rw [hu] at h
            cases t with
            | nil => rfl
            | cons a t' =>
              have := (List.cons_prefix_cons.mp h).1
              exact absurd (this ▸ List.mem_cons_self a t') hnl
        subst ht
        exact List.nil_prefix
      | none =>
        simp only [reSubDeployAux, htm] at h
        cases t with
        | nil => exact List.nil_prefix
        | cons a t' =>
          obtain ⟨hac, hp⟩ := List.cons_prefix_cons.mp h
          have hnl' : '\n' ∉ t' := fun hm => hnl (List.mem_cons_of_mem a hm)
          exact List.cons_prefix_cons.mpr ⟨hac, ih s' t' hnl' hp⟩

/-- The scan never creates a new occurrence of a newline-free nonempty needle:
deletions end at a newline or at the end of the text, so any occurrence in
the output already occurs in the input. -/
theorem reSubDeployAux_no_marker {M : List Char} (hM : M ≠ []) (hnl : '\n' ∉ M) :
    ∀ (fuel : Nat) (s : List Char), ¬ M <:+: s → ¬ M <:+: reSubDeployAux fuel s := by
  intro fuel
  induction fuel with
  | zero =>
    intro s h
    cases s with
    | nil => exact h
    | cons c u => exact h
  | succ f ih =>
    intro s h
    cases s with
    | nil => exact h
    | cons c s' =>
      rw [reSubDeployAux]
      cases htm : tryMatchDeploy (c :: s') with
      | some rest =>
        have hrest : ¬ M <:+: rest := fun hin =>
          h (hin.trans (tryMatchDeploy_shape htm).2.isInfix)
        exact ih rest hrest
      | none =>
        intro hin
        rcases List.infix_cons_iff.mp hin with hp | hi
        · cases M with
          | nil => exact hM rfl
          | cons a M' =>
            obtain ⟨hac, hp'⟩ := List.cons_prefix_cons.mp hp
            have hnl' : '\n' ∉ M' := fun hm => hnl (List.mem_cons_of_mem a hm)
            have : M' <+: s' := reSubDeployAux_prefix_nl f s' M' hnl' hp'
            exact h (List.IsPrefix.isInfix (List.cons_prefix_cons.mpr ⟨hac, this⟩))
        · exact ih s' (fun hin' => h (List.infix_cons hin')) hi

/-- Marker preservation for the top-level scan. -/
theorem reSubDeploy_no_marker {M s : List Char} (hM : M ≠ []) (hnl : '\n' ∉ M)
    (h : ¬ M <:+: s) : ¬ M <:+: reSubDeploy s :=
  reSubDeployAux_no_marker hM hnl s.length s h

/-- The substring test agrees with the infix relation. -/
theorem pyContains_iff (sub s : List Char) : pyContains sub s = true ↔ sub <:+: s := by
  induction s with
  | nil => simp [pyContains, List.isEmpty_iff]
  | cons c t ih =>
    rw [pyContains, Bool.or_eq_true, List.isPrefixOf_iff_prefix, ih, List.infix_cons_iff]

/-- The substring test's negative side. -/
theorem pyContains_eq_false_iff (sub s : List Char) :
    pyContains sub s = false ↔ ¬ sub <:+: s := by
  rw [Bool.eq_false_iff, Ne, pyContains_iff]

/-! ## The claims -/

/-- One application of the manifest patch with the spec
`{cpu: "0.5", memory: "512M"}`; Python renders the derived cpu reservation
`float("0.5") * 0.5` as `0.25`. -/
def patch05 (m : List Char) : List Char :=
  (update_compose_file (some "0.5".toList) (some "512M".toList) "0.25".toList m).content

set_option maxRecDepth 16384 in
/-- Claim C1: patching the manifest is NOT idempotent, contradicting the
claim.  On the baseline manifest, the first application inserts the
resource-limits section; the second application's removal pattern deletes
only the `deploy:` header line (the lazy body stops at the immediately
following `\n      resources:` lookahead), so the second result carries the
first section's entire body as orphaned lines after the freshly inserted
section, and differs from the first result.  This contradicts both the
spec's idempotence invariant and the source's own
`Remove existing deploy section first` comment, so the code, not the claim,
is wrong. -/
theorem claim_c1_update_twice_diverges :
    patch05 original_content
      = original_content
        ++ ("\n    deploy:\n      resources:\n        limits:\n          cpus: '0.5'\n          memory: 512M\n        reservations:\n          cpus: '0.25'\n          memory: 512M").toList
    ∧ patch05 (patch05 original_content)
      = patch05 original_content
        ++ ("\n      resources:\n        limits:\n          cpus: '0.5'\n          memory: 512M\n        reservations:\n          cpus: '0.25'\n          memory: 512M").toList
    ∧ patch05 (patch05 original_content) ≠ patch05 original_content :=
  ⟨by decide, by decide, by decide⟩

/-- Claim C6: after any number of patch applications starting from any
manifest, one reset leaves the manifest byte-identical to the fixed
baseline document, and the baseline carries no resource-limits section. -/
theorem claim_c6_reset_restores_baseline
    (env : ManagerEnv) (specs : List (Option (List Char) × Option (List Char) × List Char))
    (m0 : List Char) :
    (reset_resource_limits_mgr env
        (specs.foldl (fun m s => (update_compose_file s.1 s.2.1 s.2.2 m).content) m0)).manifest
      = original_content
    ∧ ¬ ("deploy:".toList <:+: original_content) := by
  constructor
  · unfold reset_resource_limits_mgr
    split <;> rfl
  · exact (pyContains_eq_false_iff _ _).mp (by decide)

/-- Claim C9: when the manifest does not contain the identity marker,
`update_compose_file` still reports success, and the written manifest is
the input manifest with only the deploy-pattern deletion applied — the
marker replacement finds no occurrence (deletions cannot create one, since
every deletion ends at a newline or at the end of the text while the
marker is newline-free), so no resource-limits section is inserted. -/
theorem claim_c9_missing_marker_noop_success
    (cpu mem : Option (List Char)) (cpuRes content : List Char)
    (h : ¬ composeMarker <:+: content) :
    (update_compose_file cpu mem cpuRes content).success = true ∧
    (update_compose_file cpu mem cpuRes content).content =
      (if pyContains "deploy:".toList content then reSubDeploy content else content) := by
  have hM : composeMarker ≠ [] := by decide
  have hnl : '\n' ∉ composeMarker := by decide
  refine ⟨rfl, ?_⟩
  show pyReplace composeMarker _ (if pyContains "deploy:".toList content then reSubDeploy content else content) = _
  by_cases hd : pyContains "deploy:".toList content = true
  · rw [if_pos hd]
    exact pyReplace_noop _ _ _ (reSubDeploy_no_marker hM hnl h)
  · rw [if_neg hd]
    exact pyReplace_noop _ _ _ h

/-- Witness for C9 on a concrete marker-free manifest. -/
theorem claim_c9_witness :
    ¬ composeMarker <:+: ("services:\n  web:\n    image: x").toList
    ∧ (update_compose_file none none [] ("services:\n  web:\n    image: x").toList).success = true
    ∧ (update_compose_file none none [] ("services:\n  web:\n    image: x").toList).content =
        (if pyContains "deploy:".toList ("services:\n  web:\n    image: x").toList
         then reSubDeploy ("services:\n  web:\n    image: x").toList
         else ("services:\n  web:\n    image: x").toList) := by
  have h : ¬ composeMarker <:+: ("services:\n  web:\n    image: x").toList :=
    (pyContains_eq_false_iff _ _).mp (by decide)
  exact ⟨h, claim_c9_missing_marker_noop_success none none [] _ h⟩

/-- An environment in which the stop tool fails and everything else
succeeds. -/
def envStopFail : ManagerEnv :=
  { stopRes := { returncode := 1, stdout := [], stderr := "boom".toList },
    removeRes := { returncode := 0, stdout := [], stderr := [] },
    startRes := { returncode := 0, stdout := [], stderr := [] },
    psRes := { returncode := 0, stdout := [], stderr := [] },
    inspectRes := .failed }

/-- Claim C3's counterexample: with a failing stop tool and a succeeding
start tool, `reset_resource_limits` reports success with no error kind,
and the manifest is overwritten anyway — there is no `StopFailed`
short-circuit in the reset path. -/
theorem claim_c3_counterexample :
    envStopFail.stopRes.returncode ≠ 0
    ∧ (reset_resource_limits_mgr envStopFail "X".toList).success = true
    ∧ (reset_resource_limits_mgr envStopFail "X".toList).errorTag = none
    ∧ (reset_resource_limits_mgr envStopFail "X".toList).manifest ≠ "X".toList :=
  ⟨by decide, rfl, rfl, by decide⟩

/-- Claim C3 amended: `reset_resource_limits` ignores the stop step's outcome
entirely; it always overwrites the manifest with the baseline and runs the
stop, write and start steps; its only tool-failure kind is
`START_CONTAINER_FAILED`, reported exactly when the start step exits
nonzero. -/
theorem claim_c3_amended_reset_ignores_stop_failure (env : ManagerEnv) (m0 : List Char) :
    (reset_resource_limits_mgr env m0).manifest = original_content
    ∧ (reset_resource_limits_mgr env m0).trace = [.stop, .writeManifest, .start]
    ∧ ((reset_resource_limits_mgr env m0).success = true ↔ env.startRes.returncode = 0)
    ∧ (env.startRes.returncode ≠ 0 →
        (reset_resource_limits_mgr env m0).errorTag = some "START_CONTAINER_FAILED".toList) := by
  unfold reset_resource_limits_mgr
  by_cases h : env.startRes.returncode ≠ 0
  · rw [if_pos h]
    exact ⟨rfl, rfl, by simp [h], fun _ => rfl⟩
  · rw [if_neg h]
    push_neg at h
    exact ⟨rfl, rfl, by simp [h], fun hc => absurd h hc⟩

/-- An environment in which the start tool fails. -/
def envStartFail : ManagerEnv :=
  { stopRes := { returncode := 1, stdout := [], stderr := "boom".toList },
    removeRes := { returncode := 0, stdout := [], stderr := [] },
    startRes := { returncode := 1, stdout := [], stderr := "up failed".toList },
    psRes := { returncode := 0, stdout := [], stderr := [] },
    inspectRes := .failed }

/-- Witness for the amended C3 at a concrete environment. -/
theorem claim_c3_witness :
    envStartFail.startRes.returncode ≠ 0
    ∧ (reset_resource_limits_mgr envStartFail [] ).manifest = original_content
    ∧ (reset_resource_limits_mgr envStartFail [] ).errorTag
        = some "START_CONTAINER_FAILED".toList := by
  have h := claim_c3_amended_reset_ignores_stop_failure envStartFail []
  exact ⟨by decide, h.1, h.2.2.2 (by decide)⟩

/-- Claim C2: a failing stop tool short-circuits `set_resource_limits`: the
result is a failure tagged `STOP_CONTAINER_FAILED` carrying the stop
tool's stderr, only the stop step ran, and the manifest is untouched;
and whenever the dispatcher actually spawned the manager and the spawned
process exited nonzero, the response line is `RESOURCE_LIMITS_ERROR:`
followed by that process's diagnostic output. -/
theorem claim_c2_stop_failure_short_circuits
    (env : ManagerEnv) (cpu mem : Option (List Char)) (cpuRes m0 : List Char)
    (h : env.stopRes.returncode ≠ 0) :
    (set_resource_limits_mgr env cpu mem cpuRes m0).success = false
    ∧ (set_resource_limits_mgr env cpu mem cpuRes m0).errorTag
        = some "STOP_CONTAINER_FAILED".toList
    ∧ (set_resource_limits_mgr env cpu mem cpuRes m0).message
        = "Failed to stop container: ".toList ++ env.stopRes.stderr
    ∧ (set_resource_limits_mgr env cpu mem cpuRes m0).manifest = m0
    ∧ (set_resource_limits_mgr env cpu mem cpuRes m0).trace = [.stop]
    ∧ (∀ (cmd : List Char) (g : ProcResult) (args : List (List Char)),
        g.returncode ≠ 0 → (set_resource_limits_gw cmd g).1 = some args →
        (set_resource_limits_gw cmd g).2 = "RESOURCE_LIMITS_ERROR:".toList ++ g.stderr) := by
  unfold set_resource_limits_mgr
  rw [if_pos h]
  refine ⟨rfl, rfl, rfl, rfl, rfl, ?_⟩
  intro cmd g args hg hsome
  cases hsp : pySplitOnce ':' cmd with
  | none =>
    simp only [set_resource_limits_gw, hsp] at hsome
    exact Option.noConfusion hsome
  | some p =>
    obtain ⟨pre, ld⟩ := p
    simp only [set_resource_limits_gw, hsp] at hsome ⊢
    split at hsome
    · exact absurd hsome (by simp)
    · next hcond =>
      rw [if_neg hcond, if_neg hg]

/-- Witness for C2 at a concrete failing stop and a concrete dispatcher
spawn whose manager process exits nonzero. -/
theorem claim_c2_witness :
    envStopFail.stopRes.returncode ≠ 0
    ∧ (set_resource_limits_mgr envStopFail (some "0.5".toList) (some "512M".toList)
          "0.25".toList original_content).errorTag = some "STOP_CONTAINER_FAILED".toList
    ∧ (set_resource_limits_mgr envStopFail (some "0.5".toList) (some "512M".toList)
          "0.25".toList original_content).manifest = original_content
    ∧ (set_resource_limits_gw "SET_RESOURCE_LIMITS:CPU=0.5".toList
          { returncode := 1, stdout := [], stderr := "boom".toList }).2
        = "RESOURCE_LIMITS_ERROR:".toList ++ "boom".toList := by
  have h := claim_c2_stop_failure_short_circuits envStopFail (some "0.5".toList)
    (some "512M".toList) "0.25".toList original_content (by decide)
  refine ⟨by decide, h.2.1, h.2.2.2.1, ?_⟩
  exact h.2.2.2.2.2 "SET_RESOURCE_LIMITS:CPU=0.5".toList
    { returncode := 1, stdout := [], stderr := "boom".toList }
    ["python3".toList, "resource_manager.py".toList, "set".toList, "0.5".toList, "1G".toList]
    (by decide) (by decide)

/-- The normalized command matches no entry of the dispatch table: not a log
line, none of the exact commands, and not a payload-carrying prefix
command. -/
def dispatchMiss (c : List Char) : Prop :=
  ("[LOG]".toList.isPrefixOf c) = false
  ∧ c ≠ "START_CONTAINER".toList
  ∧ c ≠ "STOP_CONTAINER".toList
  ∧ c ≠ "GET_CONTAINER_STATUS".toList
  ∧ c ≠ "RUN_PAYLOAD".toList
  ∧ c ≠ "GET_STATUS".toList
  ∧ c ≠ "GET_FILES".toList
  ∧ c ≠ "SHUTDOWN".toList
  ∧ c ≠ "PING".toList
  ∧ ("SET_RESOURCE_LIMITS:".toList.isPrefixOf c) = false
  ∧ c ≠ "RESET_RESOURCE_LIMITS".toList
  ∧ ("TEXT_PROMPT:".toList.isPrefixOf c) = false

/-- Claim C4's counterexample: the unmatched input `foo` is answered with
`UNKNOWN_CMD:FOO` — the normalized command, not the original command as
received. -/
theorem claim_c4_counterexample :
    process_obc_command envDefault "foo".toList = some ("UNKNOWN_CMD:FOO".toList)
    ∧ "UNKNOWN_CMD:FOO".toList ≠ "UNKNOWN_CMD:".toList ++ "foo".toList :=
  ⟨rfl, by decide⟩

/-- Claim C4 amended: every input whose trimmed, upper-cased form matches no
dispatch-table entry is answered, never dropped, with exactly
`UNKNOWN_CMD:` followed by that trimmed, upper-cased form (not the
original input text). -/
theorem claim_c4_amended_unknown_cmd_normalized
    (env : GatewayEnv) (s : List Char) (h : dispatchMiss (pyNormalize s)) :
    process_obc_command env s = some ("UNKNOWN_CMD:".toList ++ pyNormalize s) := by
  obtain ⟨h1, h2, h3, h4, h5, h6, h7, h8, h9, h10, h11, h12⟩ := h
  unfold process_obc_command dispatchCommand
  rw [if_neg (by rw [h1]; simp), if_neg h2, if_neg h3, if_neg h4, if_neg h5, if_neg h6,
    if_neg h7, if_neg h8, if_neg h9, if_neg (by rw [h10]; simp), if_neg h11,
    if_neg (by rw [h12]; simp)]

/-- Witness for the amended C4 at the concrete unmatched input `foo`. -/
theorem claim_c4_witness :
    dispatchMiss (pyNormalize "foo".toList)
    ∧ process_obc_command envDefault "foo".toList
        = some ("UNKNOWN_CMD:".toList ++ pyNormalize "foo".toList) := by
  have h : dispatchMiss (pyNormalize "foo".toList) := by
    unfold dispatchMiss
    decide
  exact ⟨h, claim_c4_amended_unknown_cmd_normalized envDefault _ h⟩

/-- Claim C5's counterexample: `TEXT_PROMPT:hello` is answered with
`HELLO OK`, not with the verbatim echo `hello OK` the claim requires. -/
theorem claim_c5_counterexample :
    process_obc_command envDefault "TEXT_PROMPT:hello".toList = some ("HELLO OK".toList)
    ∧ some ("HELLO OK".toList) ≠ some ("hello OK".toList) :=
  ⟨rfl, by decide⟩

/-- Claim C5 amended: dispatching `TEXT_PROMPT:` followed by any payload
echoes the payload after the dispatcher's line normalization — trailing
whitespace stripped and letters upper-cased — with ` OK` appended (the
whole line is normalized before the payload is extracted, so the echo is
not verbatim). -/
theorem claim_c5_amended_text_prompt_normalized (env : GatewayEnv) (t : List Char) :
    process_obc_command env ("TEXT_PROMPT:".toList ++ t)
      = some (pyUpper (pyRstrip t) ++ " OK".toList) := by
  have hnorm : pyNormalize ("TEXT_PROMPT:".toList ++ t)
      = "TEXT_PROMPT:".toList ++ pyUpper (pyRstrip t) := by
    unfold pyNormalize pyStrip
    have h1 : pyLstrip ("TEXT_PROMPT:".toList ++ t) = "TEXT_PROMPT:".toList ++ t := rfl
    rw [h1, pyRstrip_append "TEXT_PROMPT:".toList t rfl]
    show List.map Char.toUpper _ = _
    rw [List.map_append]
    rfl
  have htp : ("TEXT_PROMPT:".toList.isPrefixOf
      ("TEXT_PROMPT:".toList ++ pyUpper (pyRstrip t))) = true := by
    simp
  unfold process_obc_command
  rw [hnorm]
  unfold dispatchCommand
  rw [htp]
  rfl

/-- Claim C10: when the parsed payload carries exactly one of the two keys
(with a nonempty value) and the spawned manager succeeds, the spawn's
argument vector substitutes the fixed default for the omitted side
(`1.0` for cpu, `1G` for memory), while the success response renders the
omitted side as the literal text `None`. -/
theorem claim_c10_single_key_defaults_and_none
    (cmd pre ld : List Char) (g : ProcResult) (v : List Char)
    (hsp : pySplitOnce ':' cmd = some (pre, ld))
    (hg : g.returncode = 0) :
    (parse_limits (pySplitAll ',' ld) = (some v, none) → v ≠ [] →
        set_resource_limits_gw cmd g =
          (some ["python3".toList, "resource_manager.py".toList, "set".toList, v, "1G".toList],
           "RESOURCE_LIMITS_SET:CPU=".toList ++ v ++ ",Memory=".toList ++ "None".toList))
    ∧ (parse_limits (pySplitAll ',' ld) = (none, some v) → v ≠ [] →
        set_resource_limits_gw cmd g =
          (some ["python3".toList, "resource_manager.py".toList, "set".toList, "1.0".toList, v],
           "RESOURCE_LIMITS_SET:CPU=".toList ++ "None".toList ++ ",Memory=".toList ++ v)) := by
  constructor
  · intro hp hv
    have htv : pyTruthy (some v) = true := by
      simp [pyTruthy, List.isEmpty_iff, hv]
    simp only [set_resource_limits_gw, hsp, hp, pyTruthy, pyShowOpt]
    rw [if_neg (by simp [List.isEmpty_iff, hv]), if_pos hg]
    simp [List.isEmpty_iff, hv]
  · intro hp hv
    simp only [set_resource_limits_gw, hsp, hp, pyTruthy, pyShowOpt]
    rw [if_neg (by simp [List.isEmpty_iff, hv]), if_pos hg]
    simp [List.isEmpty_iff, hv]

/-- Witness for C10 at the concrete command `SET_RESOURCE_LIMITS:CPU=0.5`. -/
theorem claim_c10_witness :
    pySplitOnce ':' "SET_RESOURCE_LIMITS:CPU=0.5".toList
      = some ("SET_RESOURCE_LIMITS".toList, "CPU=0.5".toList)
    ∧ parse_limits (pySplitAll ',' "CPU=0.5".toList) = (some "0.5".toList, none)
    ∧ set_resource_limits_gw "SET_RESOURCE_LIMITS:CPU=0.5".toList
          { returncode := 0, stdout := [], stderr := [] }
        = (some ["python3".toList, "resource_manager.py".toList, "set".toList,
                 "0.5".toList, "1G".toList],
           "RESOURCE_LIMITS_SET:CPU=".toList ++ "0.5".toList ++ ",Memory=".toList
             ++ "None".toList) := by
  refine ⟨rfl, rfl, ?_⟩
  exact (claim_c10_single_key_defaults_and_none "SET_RESOURCE_LIMITS:CPU=0.5".toList
    "SET_RESOURCE_LIMITS".toList "CPU=0.5".toList
    { returncode := 0, stdout := [], stderr := [] } "0.5".toList rfl rfl).1 rfl (by decide)

/-- An environment in which all five metric queries and the identity query
fail with empty stdout. -/
def envStatsFail : ContainerStatsEnv :=
  { cpuQ := { returncode := 1, stdout := [], stderr := "err".toList },
    memQ := { returncode := 1, stdout := [], stderr := "err".toList },
    memPercentQ := { returncode := 1, stdout := [], stderr := "err".toList },
    netQ := { returncode := 1, stdout := [], stderr := "err".toList },
    blockQ := { returncode := 1, stdout := [], stderr := "err".toList },
    infoQ := { returncode := 1, stdout := [], stderr := "err".toList } }

set_option maxRecDepth 16384 in
/-- Claim C8: with every query failing, the probe still answers a fully-formed
`CONTAINER_STATUS:<json>` line and each failed metric degrades only its own
field to `N/A` — but the lifecycle status field is the EMPTY string, not
the claimed `unknown`: splitting the empty stdout yields the one-element
list `[""]`, so the `unknown` fallback (guarded by the list being empty)
is unreachable; the source's own fallback value and the spec agree that
`unknown` was intended, so this is a code bug. -/
theorem claim_c8_status_probe_eval :
    get_container_status envStatsFail "2026-01-01T00:00:00".toList
      = ("CONTAINER_STATUS:\x7b\"container_name\": \"satlyt-container\", \"status\": \"\", \"cpu_percent\": \"N/A\", \"memory_usage\": \"N/A\", \"memory_percent\": \"N/A\", \"network_io\": \"N/A\", \"block_io\": \"N/A\", \"started_at\": \"N/A\", \"image\": \"N/A\", \"timestamp\": \"2026-01-01T00:00:00\"\x7d").toList
    ∧ pySplitAll '\t' (pyStrip envStatsFail.infoQ.stdout) = [[]] :=
  ⟨rfl, rfl⟩

/-- Claim C7's counterexample: with the cpu quota unset but `CpuCount = 2`,
the readback reports `2`, not `unlimited` — refuting the clause that a
zero or unset quota always reads back as `unlimited`. -/
theorem claim_c7_counterexample :
    get_current_limits (.ok (some
        { cpuQuota := none, cpuPeriod := none, cpuCount := some 2, memory := none }))
      = ("2".toList, "unlimited".toList)
    ∧ "2".toList ≠ "unlimited".toList :=
  ⟨rfl, by decide⟩

/-- Claim C7 amended: assuming the inspect query succeeded, a positive quota
reads back as the `:.1f` rendering of `quota / period` (period defaulting
to 100000), except that a positive quota next to an explicit zero period
hits `ZeroDivisionError` and the whole readback degrades to
`("unknown", "unknown")`; with quota unset or nonpositive the readback
falls back to a positive `CpuCount` rendered as an integer and only reads
`unlimited` when that is also unset or nonpositive; outside the
zero-division corner, a positive memory byte count `b` reads back
GiB-rendered when `b ≥ 2^30`, MiB-rendered when `2^20 ≤ b < 2^30` and as
raw bytes otherwise, while an unset or nonpositive memory reads
`unlimited`. -/
theorem claim_c7_amended_readback_conversion (hc : HostConfig) :
    (∀ q p : Int, hc.cpuQuota.getD 0 = q → 0 < q → hc.cpuPeriod.getD 100000 = p → 0 < p →
        (get_current_limits (.ok (some hc))).1 = fmtFixed 1 ((q : ℚ) / (p : ℚ)))
    ∧ (hc.cpuQuota.getD 0 > 0 → hc.cpuPeriod.getD 100000 = 0 →
        get_current_limits (.ok (some hc)) = ("unknown".toList, "unknown".toList))
    ∧ (∀ n : Int, hc.cpuQuota.getD 0 ≤ 0 → hc.cpuCount.getD 0 = n → 0 < n →
        (get_current_limits (.ok (some hc))).1 = intStr n)
    ∧ (hc.cpuQuota.getD 0 ≤ 0 → hc.cpuCount.getD 0 ≤ 0 →
        (get_current_limits (.ok (some hc))).1 = "unlimited".toList)
    ∧ (∀ b : Int, ¬(hc.cpuQuota.getD 0 > 0 ∧ hc.cpuPeriod.getD 100000 = 0) →
        hc.memory.getD 0 = b → 1024 ^ 3 ≤ b →
        (get_current_limits (.ok (some hc))).2 = fmtFixed 1 ((b : ℚ) / ((1024 : ℚ) ^ 3)) ++ ['G'])
    ∧ (∀ b : Int, ¬(hc.cpuQuota.getD 0 > 0 ∧ hc.cpuPeriod.getD 100000 = 0) →
        hc.memory.getD 0 = b → 1024 ^ 2 ≤ b → b < 1024 ^ 3 →
        (get_current_limits (.ok (some hc))).2 = fmtFixed 0 ((b : ℚ) / ((1024 : ℚ) ^ 2)) ++ ['M'])
    ∧ (∀ b : Int, ¬(hc.cpuQuota.getD 0 > 0 ∧ hc.cpuPeriod.getD 100000 = 0) →
        hc.memory.getD 0 = b → 0 < b → b < 1024 ^ 2 →
        (get_current_limits (.ok (some hc))).2 = intStr b ++ ['B'])
    ∧ (¬(hc.cpuQuota.getD 0 > 0 ∧ hc.cpuPeriod.getD 100000 = 0) →
        hc.memory.getD 0 ≤ 0 →
        (get_current_limits (.ok (some hc))).2 = "unlimited".toList) := by
  refine ⟨?_, ?_, ?_, ?_, ?_, ?_, ?_, ?_⟩
  · intro q p hq hq' hp hp'
    simp only [get_current_limits]
    rw [hq, hp, if_neg (by rintro ⟨-, h0⟩; omega)]
    dsimp only
    rw [if_pos hq']
  · intro h1 h2
    simp only [get_current_limits]
    rw [if_pos ⟨h1, h2⟩]
  · intro n h1 hn hn'
    simp only [get_current_limits]
    rw [if_neg (by rintro ⟨hgt, -⟩; omega)]
    dsimp only
    rw [if_neg (by omega), hn, if_pos hn']
  · intro h1 h2
    simp only [get_current_limits]
    rw [if_neg (by rintro ⟨hgt, -⟩; omega)]
    dsimp only
    rw [if_neg (by omega), if_neg (by omega)]
  · intro b hzd hb hbig
    simp only [get_current_limits]
    rw [if_neg hzd]
    dsimp only
    rw [hb, if_pos (by omega : b > 0), if_pos hbig]
  · intro b hzd hb hlo hhi
    simp only [get_current_limits]
    rw [if_neg hzd]
    dsimp only
    rw [hb, if_pos (by omega : b > 0), if_neg (by omega), if_pos hlo]
  · intro b hzd hb hpos hhi
    simp only [get_current_limits]
    rw [if_neg hzd]
    dsimp only
    rw [hb, if_pos hpos, if_neg (by omega), if_neg (by omega)]
  · intro hzd h
    simp only [get_current_limits]
    rw [if_neg hzd]
    dsimp only
    rw [if_neg (by omega)]

/-- The host configuration used by the C7 witness: quota 50000 with default
period, 2 GiB of memory. -/
def hcWitness : HostConfig :=
  { cpuQuota := some 50000, cpuPeriod := none, cpuCount := none,
    memory := some 2147483648 }

/-- Rounding an integer value is the identity. -/
theorem roundHalfEven_intCast (n : Int) : roundHalfEven ((n : Int) : ℚ) = n := by
  simp only [roundHalfEven]
  rw [Int.floor_intCast]
  norm_num

/-- The host configuration exercising the CpuCount fallback: quota unset,
`CpuCount = 2`. -/
def hcCountFallback : HostConfig :=
  { cpuQuota := none, cpuPeriod := none, cpuCount := some 2, memory := none }

/-- The host configuration exercising the zero-division corner: a positive
quota next to an explicit zero period. -/
def hcZeroPeriod : HostConfig :=
  { cpuQuota := some 50000, cpuPeriod := some 0, cpuCount := none, memory := some 1 }

/-- Witness for the amended C7: quota 50000 over the default period reads back
as `0.5`, 2147483648 bytes read back as `2.0G`, an unset quota with
`CpuCount = 2` reads back as the integer `2`, and a positive quota with an
explicit zero period degrades the whole readback to `unknown`. -/
theorem claim_c7_witness :
    (get_current_limits (.ok (some hcWitness))).1 = fmtFixed 1 ((50000 : ℚ) / (100000 : ℚ))
    ∧ (get_current_limits (.ok (some hcWitness))).2
        = fmtFixed 1 (((2147483648 : Int) : ℚ) / ((1024 : ℚ) ^ 3)) ++ ['G']
    ∧ fmtFixed 1 ((50000 : ℚ) / (100000 : ℚ)) = "0.5".toList
    ∧ fmtFixed 1 (((2147483648 : Int) : ℚ) / ((1024 : ℚ) ^ 3)) ++ ['G'] = "2.0G".toList
    ∧ (get_current_limits (.ok (some hcCountFallback))).1 = intStr 2
    ∧ get_current_limits (.ok (some hcZeroPeriod)) = ("unknown".toList, "unknown".toList) := by
  have h := claim_c7_amended_readback_conversion hcWitness
  have hfmt1 : fmtFixed 1 ((50000 : ℚ) / (100000 : ℚ)) = "0.5".toList := by
    simp only [fmtFixed]
    rw [show ((50000 : ℚ) / 100000) * 10 ^ 1 = ((5 : Int) : ℚ) from by norm_num,
      roundHalfEven_intCast]
    decide
  have hfmt2 : fmtFixed 1 (((2147483648 : Int) : ℚ) / ((1024 : ℚ) ^ 3)) = "2.0".toList := by
    simp only [fmtFixed]
    rw [show (((2147483648 : Int) : ℚ) / ((1024 : ℚ) ^ 3)) * 10 ^ 1 = ((20 : Int) : ℚ) from by
        norm_num, roundHalfEven_intCast]
    decide
  refine ⟨?_, h.2.2.2.2.1 2147483648 (by decide) rfl (by decide), hfmt1,
    by rw [hfmt2]; decide,
    (claim_c7_amended_readback_conversion hcCountFallback).2.2.1 2 (by decide) rfl (by decide),
    (claim_c7_amended_readback_conversion hcZeroPeriod).2.1 (by decide) rfl⟩
  have h1 := h.1 50000 100000 rfl (by decide) rfl (by decide)
  simpa using h1
